import Mathlib

/-!
Shallow embedding of the query-construction, result-handling, attribute-filter
and download-dispatch core of `src/src/copernicus_api.py` (class
`CopernicusDataspaceAPI` and the module-level filter functions), together with
theorems settling the specification claims about it.

Python exceptions are modelled as an error type carried in `Except`; Python
`None`-able parameters become `Option`; Python truthiness of a string (non-empty)
and of an int (non-zero) is made explicit at each `if` that uses it; pandas
DataFrames become a column list plus rows of association lists.
-/

namespace Copernicus

/-- The exception classes that the filter / query / download paths of
`copernicus_api.py` can raise, each carrying its message payload.
`keyError` models Python's builtin `KeyError` (payload: the missing key),
`valueError` the builtin `ValueError`; the others model the classes imported
from `.exceptions`.  `AttributeNotFoundError(e)` is raised with the caught
`KeyError` as its argument, so its payload is the missing key as well. -/
inductive PyError where
  | queryError (msg : String)
  | keyError (key : String)
  | valueError (msg : String)
  | attributeNotFoundError (key : String)
  | downloadError (msg : String)
  | authorizationError (msg : String)
deriving DecidableEq, Repr

/-- The Python class name of each modelled exception, as `type(e).__name__`
would report it. -/
def PyError.className : PyError → String
  | .queryError _ => "QueryError"
  | .keyError _ => "KeyError"
  | .valueError _ => "ValueError"
  | .attributeNotFoundError _ => "AttributeNotFoundError"
  | .downloadError _ => "DownloadError"
  | .authorizationError _ => "AuthorizationError"

/-- The class name of the error of a failed computation, `none` on success. -/
def errClass {α : Type} : Except PyError α → Option String
  | .error e => some e.className
  | .ok _ => none

/-- Equality of modelled computation results is decidable, so concrete runs can
be compared by evaluation. -/
instance {ε α : Type} [DecidableEq ε] [DecidableEq α] : DecidableEq (Except ε α)
  | .error e, .error f =>
    if h : e = f then .isTrue (by rw [h]) else .isFalse (by intro hc; cases hc; exact h rfl)
  | .error _, .ok _ => .isFalse (by intro hc; cases hc)
  | .ok _, .error _ => .isFalse (by intro hc; cases hc)
  | .ok a, .ok b =>
    if h : a = b then .isTrue (by rw [h]) else .isFalse (by intro hc; cases hc; exact h rfl)

/- ----------------------------------------------------------------
   Query Builder: `CopernicusDataspaceAPI._build_query` (lines 110-136)
   ---------------------------------------------------------------- -/

def CATALOG_URL : String :=
  "https://catalogue.dataspace.copernicus.eu/odata/v1/Products?$filter=Collection"

/-- `_build_query` (lines 110-136).  `mission` is the concrete subclass's
`self.mission` property; each optional argument reproduces the source's
`if prod_type:` / `if limit:` truthiness test (a present-but-empty string and a
present-but-zero limit take the `else` path, exactly as falsy values do in
Python). -/
def build_query (mission start_time end_time : String)
    (prod_type exclude footprint orderby : Option String)
    (limit : Option Int) : String :=
  let q0 := CATALOG_URL ++ "/Name eq '" ++ mission ++ "'"
    ++ " and ContentDate/Start gt " ++ start_time ++ "T00:00:00.000Z"
    ++ " and ContentDate/Start lt " ++ end_time ++ "T00:00:00.000Z"
  let q1 := match prod_type with
    | some s => if s = "" then q0 else q0 ++ " and contains(Name, '" ++ s ++ "')"
    | none => q0
  let q2 := match exclude with
    | some s => if s = "" then q1 else q1 ++ " and not contains(Name,'" ++ s ++ "')"
    | none => q1
  let q3 := match footprint with
    | some s => if s = "" then q2
      else q2 ++ " and OData.CSC.Intersects(area=geography'SRID=4326;" ++ s ++ "')"
    | none => q2
  let q4 := match orderby with
    | some s => if s = "" then q3 else q3 ++ "&$orderby=ContentDate/Start " ++ s
    | none => q3
  let q5 := match limit with
    | some n => if n = 0 then q4 else q4 ++ "&$top=" ++ toString n
    | none => q4
  q5 ++ "&$expand=Attributes"

/- Specification-side decomposition of the built string into named clauses,
used to state the clause-order claims. -/

def missionClause (m : String) : String := CATALOG_URL ++ "/Name eq '" ++ m ++ "'"

def dateLowerClause (st : String) : String :=
  " and ContentDate/Start gt " ++ st ++ "T00:00:00.000Z"

def dateUpperClause (et : String) : String :=
  " and ContentDate/Start lt " ++ et ++ "T00:00:00.000Z"

def typeClause : Option String → String
  | some s => if s = "" then "" else " and contains(Name, '" ++ s ++ "')"
  | none => ""

def excludeClause : Option String → String
  | some s => if s = "" then "" else " and not contains(Name,'" ++ s ++ "')"
  | none => ""

def spatialClause : Option String → String
  | some s => if s = "" then ""
    else " and OData.CSC.Intersects(area=geography'SRID=4326;" ++ s ++ "')"
  | none => ""

def sortClause : Option String → String
  | some s => if s = "" then "" else "&$orderby=ContentDate/Start " ++ s
  | none => ""

def capClause : Option Int → String
  | some n => if n = 0 then "" else "&$top=" ++ toString n
  | none => ""

def expandDirective : String := "&$expand=Attributes"

/- ----------------------------------------------------------------
   Attribute Filter: `filter_by_cloud_cover`, `_filter_by_attrs`,
   `filter_by_attributes` (lines 213-239)
   ---------------------------------------------------------------- -/

/-- A scalar cell value of a normalized product DataFrame.  `.isin` and column
lookups compare values by exact equality with no coercion, which `DecidableEq`
reproduces (a `num` never equals a `str`). -/
inductive Val where
  | num (q : ℚ)
  | str (s : String)
deriving DecidableEq, Repr

/-- A pandas DataFrame of normalized product records: a schema (the column
labels, shared by all rows) plus one association list per row.  A key that is
in `cols` but missing from some row's list is that row's NaN cell; indexing by
a key outside `cols` raises `KeyError` in pandas. -/
structure DataFrame where
  cols : List String
  rows : List (List (String × Val))
deriving DecidableEq, Repr

/-- The cell of `row` at column `k` (`none` = NaN). -/
def getCell (row : List (String × Val)) (k : String) : Option Val :=
  (row.find? (fun c => c.1 == k)).map (fun c => c.2)

/-- pandas `>=` on a cell: numeric comparison; a NaN cell or a type-mismatched
comparison selects nothing, like NaN comparisons in pandas. -/
def valGE : Val → Val → Bool
  | .num a, .num b => decide (b ≤ a)
  | _, _ => false

/-- pandas `<=` on a cell. -/
def valLE : Val → Val → Bool
  | .num a, .num b => decide (a ≤ b)
  | _, _ => false

/-- The boolean mask `(prod_df["cloudCover"] >= min_cover) & (prod_df["cloudCover"] <= max_cover)`
applied to one row. -/
def cloudCoverMask (min_cover max_cover : Val) (row : List (String × Val)) : Bool :=
  match getCell row "cloudCover" with
  | some v => valGE v min_cover && valLE v max_cover
  | none => false

/-- `filter_by_cloud_cover` (lines 213-219): select the rows whose
`cloudCover` value is within the inclusive range; pandas raises `KeyError`
when the column is absent, which the function re-raises as
`AttributeNotFoundError`. -/
def filter_by_cloud_cover (prod_df : DataFrame) (min_cover max_cover : Val) :
    Except PyError DataFrame :=
  if "cloudCover" ∈ prod_df.cols then
    .ok { prod_df with rows := prod_df.rows.filter (cloudCoverMask min_cover max_cover) }
  else
    .error (.attributeNotFoundError "cloudCover")

/-- `_filter_by_attrs` (lines 221-225): `prod_df[prod_df[attribute].isin(values)]`,
with the absent-column `KeyError` re-raised as `AttributeNotFoundError`. -/
def filter_by_attrs (prod_df : DataFrame) (attr : String) (values : List Val) :
    Except PyError DataFrame :=
  if attr ∈ prod_df.cols then
    .ok { prod_df with rows := prod_df.rows.filter (fun row =>
      match getCell row attr with
      | some v => values.contains v
      | none => false) }
  else
    .error (.attributeNotFoundError attr)

/-- Python `repr` of a cell, for the `ValueError` message's `{val}` interpolation. -/
def Val.pyRepr : Val → String
  | .num q => toString q
  | .str s => "'" ++ s ++ "'"

/-- Python `repr` of a list of cells, as an f-string interpolates it. -/
def showVals (vs : List Val) : String :=
  "[" ++ String.intercalate ", " (vs.map Val.pyRepr) ++ "]"

/-- `filter_by_attributes` (lines 227-239).  Keyword arguments become an
ordered association list (Python keeps kwargs in call order).  For the
`cloudCover` key the source asserts `len(val) == 2` and turns the
`AssertionError` into a builtin `ValueError`; every other key goes through
`_filter_by_attrs`.  Any error aborts the remaining iterations, exactly as the
uncaught exception does. -/
def filter_by_attributes : DataFrame → List (String × List Val) → Except PyError DataFrame
  | prod_df, [] => .ok prod_df
  | prod_df, (key, val) :: rest =>
    if key = "cloudCover" then
      match val with
      | [lo, hi] =>
        (filter_by_cloud_cover prod_df lo hi).bind (fun df => filter_by_attributes df rest)
      | _ =>
        .error (.valueError ("Values for 'cloudCover' must be a list of 2 elements [min, max], "
          ++ showVals val ++ " was given"))
    else
      (filter_by_attrs prod_df key val).bind (fun df => filter_by_attributes df rest)

/- ----------------------------------------------------------------
   Query response handling: the body of `query` around the catalog
   request (lines 86-91)
   ---------------------------------------------------------------- -/

/-- The outcome of `requests.get(query_str, timeout=100).json()`: either some
exception was raised inside the `try` block (transport failure or a body that
is not JSON), carrying its class name and first argument, or a parsed JSON
object, modelled as its top-level key/value pairs where each value is an array
of product rows. -/
inductive FetchOutcome where
  | failure (clsName : String) (msg : String)
  | success (body : List (String × List (List (String × Val))))
deriving Repr

/-- Top-level key lookup on a parsed JSON object. -/
def lookupKey {α : Type} (body : List (String × α)) (k : String) : Option α :=
  (body.find? (fun c => c.1 == k)).map (fun c => c.2)

/-- The response-handling step of `query` (lines 86-91): an exception raised by
the request or by `.json()` inside the `try` is re-raised as `QueryError`
formatted from the original class name and message; a parsed body is then
indexed by `json["value"]` outside the `try`, so a body with no `"value"` key
raises the bare `KeyError` of the subscript. -/
def query_response (r : FetchOutcome) : Except PyError (List (List (String × Val))) :=
  match r with
  | .failure cls msg => .error (.queryError (cls ++ ": Query failed: " ++ msg))
  | .success body =>
    match lookupKey body "value" with
    | none => .error (.keyError "value")
    | some rows => .ok rows

/- ----------------------------------------------------------------
   Download Manager: `download_by_id` (lines 138-159) and
   `download_all` (lines 161-194)
   ---------------------------------------------------------------- -/

/-- A network request issued by the download path: a POST to the token
endpoint (`_get_access_token`, line 54) or a streaming GET of one product's
binary body (`download_by_id`, line 145). -/
inductive NetCall where
  | tokenPost
  | productGet (uid : String)
deriving DecidableEq, Repr

/-- The network requests of one `_get_access_token()` call: a single POST to
`TOKEN_URL`. -/
def get_access_token_calls : List NetCall := [.tokenPost]

/-- The network requests of one `download_by_id(uid, out_path)` call: it begins
with `access_token = self._get_access_token()` (line 139), then issues the
authenticated GET for `uid`. -/
def download_by_id_calls (uid : String) : List NetCall :=
  get_access_token_calls ++ [.productGet uid]

/-- The network requests of a whole `download_all(products, ...)` batch: every
submitted `download_worker` runs `self.download_by_id(prod_id, ...)`
(line 181), and nothing outside the workers touches the network.  Workers
interleave, but the multiset (and hence any count) of the requests is
interleaving-independent, so the trace is taken in submission order. -/
def download_all_calls (products : List (String × String)) : List NetCall :=
  (products.map (fun p => download_by_id_calls p.1)).flatten

/-- How many POSTs to the token endpoint a request trace contains. -/
def tokenCalls (trace : List NetCall) : Nat :=
  trace.countP (fun c => c == .tokenPost)

/-- How many product-body GETs a request trace contains. -/
def productGetCalls (trace : List NetCall) : Nat :=
  trace.countP (fun c => match c with | .productGet _ => true | _ => false)

/-- The per-task outcome of one `download_worker(prod_id, prod_name)` run,
given the HTTP status each product GET would return: a non-200 status makes
`download_by_id` raise `DownloadError` (line 148), which the worker wraps in
its own `DownloadError` (line 183). -/
def download_worker_outcome (status : String → Nat) (prod_id prod_name : String) :
    Except PyError Unit :=
  if status prod_id = 200 then .ok ()
  else .error (.downloadError ("Errore nel download " ++ prod_name ++ ": Errore HTTP "
    ++ toString (status prod_id) ++ " per il download di " ++ prod_id))

/-- The outcomes of every task of a `download_all` batch: one task per row of
`prod_ids` (line 176) is submitted to the pool (lines 190-191), and each runs
to completion regardless of the others' failures (the pool never cancels a
submitted task). -/
def download_all_outcomes (status : String → Nat) (products : List (String × String)) :
    List (Except PyError Unit) :=
  products.map (fun p => download_worker_outcome status p.1 p.2)

/-- What `download_all` returns to its caller: the function is typed `-> None`
and `executor.submit(...)` is called without keeping the futures, so every
worker's outcome — including any raised `DownloadError` — is dropped and the
caller gets `None` back. -/
def download_all_run (status : String → Nat) (products : List (String × String)) : Unit :=
  let _ := download_all_outcomes status products
  ()

/-- The worker-pool size of `download_all` (line 188):
`threads if threads else min(cpu_count() - 2, len(products))`, with Python's
int truthiness (any non-zero `threads` is taken as given, unclamped). -/
def pool_size (threads : Int) (cpu_count : Int) (nProducts : Nat) : Int :=
  if threads ≠ 0 then threads else min (cpu_count - 2) (nProducts : Int)

/- ----------------------------------------------------------------
   Concrete data used by counterexamples and witnesses
   ---------------------------------------------------------------- -/

/-- Three normalized records whose cloud-cover values are 10, 50 and 90. -/
def exampleDf : DataFrame :=
  { cols := ["Id", "Name", "cloudCover"],
    rows := [
      [("Id", Val.str "p1"), ("Name", Val.str "A"), ("cloudCover", Val.num 10)],
      [("Id", Val.str "p2"), ("Name", Val.str "B"), ("cloudCover", Val.num 50)],
      [("Id", Val.str "p3"), ("Name", Val.str "C"), ("cloudCover", Val.num 90)]] }

/-- A record set with no `orbitDirection` (and no `cloudCover`) column. -/
def bareDf : DataFrame :=
  { cols := ["Id", "Name"],
    rows := [[("Id", Val.str "p1"), ("Name", Val.str "A")]] }

/-- A three-product batch for the download claims. -/
def demoProducts : List (String × String) := [("uid1", "A"), ("uid2", "B"), ("uid3", "C")]

/-- Every product GET succeeds. -/
def statusAllOk : String → Nat := fun _ => 200

/-- The GET for the second product of `demoProducts` returns 404; the others 200. -/
def statusSecondFails : String → Nat := fun uid => if uid = "uid2" then 404 else 200

/- ----------------------------------------------------------------
   Claims
   ---------------------------------------------------------------- -/

/-- C1 counterexample: a two-product `download_all` batch performs two POSTs to
the token endpoint, so the batch performs more than one token exchange,
contradicting "download_all never triggers more than one call to the token
endpoint regardless of how many products it is given". -/
theorem download_all_two_products_two_token_posts :
    tokenCalls (download_all_calls [("uid1", "A"), ("uid2", "B")]) = 2 ∧ ¬ (2 ≤ 1) := by
  exact ⟨rfl, by decide⟩

/-- C1 (amended): `download_all` performs one token exchange per product, not
one per batch: every worker's `download_by_id` call starts with its own
`_get_access_token()`, so a batch of `n` products POSTs to the token endpoint
exactly `n` times. -/
theorem download_all_token_post_per_product (products : List (String × String)) :
    tokenCalls (download_all_calls products) = products.length := by
  induction products with
  | nil => rfl
  | cons p t ih =>
    simp only [download_all_calls, List.map_cons, List.flatten_cons, tokenCalls,
      List.countP_append, List.length_cons] at *
    rw [ih]
    show 1 + t.length = t.length + 1
    omega

/-- C2 counterexample: on the three-product batch whose second download fails
with HTTP 404, the per-task outcomes differ from the all-successful run, yet
`download_all` returns the very same `None` to its caller in both runs — the
caller receives no per-item outcome report stating which items failed and why. -/
theorem download_all_result_hides_failures :
    download_all_outcomes statusSecondFails demoProducts ≠
      download_all_outcomes statusAllOk demoProducts
    ∧ download_all_run statusSecondFails demoProducts =
      download_all_run statusAllOk demoProducts := by
  exact ⟨by decide, rfl⟩

/-- C2 (amended): `download_all` attempts every task — one worker run per
record, none cancelled by a sibling's failure, so no failure aborts the batch —
but it reports nothing per item: its return value is `None`, identical for
every assignment of task outcomes, because the submitted futures are dropped. -/
theorem download_all_attempts_all_reports_nothing (status : String → Nat)
    (products : List (String × String)) :
    (download_all_outcomes status products).length = products.length
    ∧ ∀ status2 : String → Nat,
        download_all_run status products = download_all_run status2 products := by
  exact ⟨List.length_map _ _, fun _ => rfl⟩

/-- C3 counterexample: a response that parses to a JSON object with no
top-level `"value"` key makes `query` raise a bare `KeyError` — the subscript
`json["value"]` sits outside the `try` block — not a `QueryError`. -/
theorem query_missing_value_key_not_query_error :
    errClass (query_response (.success [("odata.count", [])])) = some "KeyError"
    ∧ some "KeyError" ≠ some "QueryError" := by
  exact ⟨rfl, by decide⟩

/-- C3 (amended): an exception raised by the catalog request or by JSON parsing
becomes a `QueryError` carrying the original error's class name and message,
but a successfully parsed body that lacks the top-level `"value"` key raises an
uncaught `KeyError` instead. -/
theorem query_response_error_kinds (cls msg : String)
    (body : List (String × List (List (String × Val))))
    (h : lookupKey body "value" = none) :
    query_response (.failure cls msg) = .error (.queryError (cls ++ ": Query failed: " ++ msg))
    ∧ query_response (.success body) = .error (.keyError "value") := by
  refine ⟨rfl, ?_⟩
  simp [query_response, h]

/-- C3 witness: the amended claim at a transport error `ConnectionError: boom`
and at a parsed body whose only key is `"foo"`. -/
theorem query_response_error_kinds_witness :
    query_response (.failure "ConnectionError" "boom")
      = .error (.queryError "ConnectionError: Query failed: boom")
    ∧ query_response (.success [("foo", [])]) = .error (.keyError "value") :=
  query_response_error_kinds "ConnectionError" "boom" [("foo", [])] (by decide)

/-- C4: the built query string is the mission-equality clause, then the two
strict date-bound clauses, then — each present exactly when its criterion is
truthy — the type, exclusion, spatial, sort and cap clauses in that fixed
order, with the attribute-expansion directive always last; with only the
mandatory fields set no optional clause appears. -/
theorem build_query_clause_order (m st et : String) (pt ex fp ob : Option String)
    (lim : Option Int) :
    build_query m st et pt ex fp ob lim =
      missionClause m ++ dateLowerClause st ++ dateUpperClause et
        ++ typeClause pt ++ excludeClause ex ++ spatialClause fp
        ++ sortClause ob ++ capClause lim ++ expandDirective
    ∧ build_query m st et none none none none none =
      missionClause m ++ dateLowerClause st ++ dateUpperClause et ++ expandDirective := by
  constructor
  · cases pt <;> cases ex <;> cases fp <;> cases ob <;> cases lim <;>
      simp only [build_query, missionClause, dateLowerClause, dateUpperClause, typeClause,
        excludeClause, spatialClause, sortClause, capClause, expandDirective, CATALOG_URL] <;>
      (try split_ifs) <;>
      simp [← String.append_assoc]
  · simp only [build_query, missionClause, dateLowerClause, dateUpperClause,
      expandDirective, CATALOG_URL]
    simp [← String.append_assoc]

/-- C5 counterexample: the malformed range predicate `cloudCover=[5]` makes the
filter fail with Python's builtin `ValueError` — the source raises `ValueError`
and imports no `InvalidFilterError` class at all — so the raised error's class
is not `InvalidFilterError`. -/
theorem cloud_cover_arity_error_is_value_error :
    errClass (filter_by_attributes exampleDf [("cloudCover", [Val.num 5])]) = some "ValueError"
    ∧ some "ValueError" ≠ some "InvalidFilterError" := by
  exact ⟨rfl, by decide⟩

/-- C5 (amended): a `cloudCover` predicate value that does not have exactly two
elements makes the filter fail before anything is filtered, with a builtin
`ValueError` whose message identifies the offending key (`cloudCover`) and the
violating value; in particular `cloudCover=[5]` raises `ValueError`. -/
theorem cloud_cover_bad_arity_value_error (prod_df : DataFrame) (val : List Val)
    (rest : List (String × List Val)) (h : val.length ≠ 2) :
    filter_by_attributes prod_df (("cloudCover", val) :: rest)
      = .error (.valueError ("Values for 'cloudCover' must be a list of 2 elements [min, max], "
          ++ showVals val ++ " was given")) := by
  rcases val with _ | ⟨a, _ | ⟨b, _ | ⟨c, t⟩⟩⟩
  · rfl
  · rfl
  · exact absurd rfl h
  · rfl

/-- C5 witness: the amended claim at the spec's own example `cloudCover=[5]`. -/
theorem cloud_cover_bad_arity_value_error_witness :
    filter_by_attributes exampleDf [("cloudCover", [Val.num 5])]
      = .error (.valueError
          "Values for 'cloudCover' must be a list of 2 elements [min, max], [5] was given") := by
  have h := cloud_cover_bad_arity_value_error exampleDf [Val.num 5] [] (by decide)
  rw [h]
  rfl

/-- C6: a predicate whose attribute key labels no column of the record set
(the key is absent from every record) makes the whole filter call fail with an
`AttributeNotFoundError` naming the missing key — it is not treated as "no
matches", and the remaining predicates are never applied (all-or-nothing).
Both filter paths behave this way: the generic set-membership path and the
`cloudCover` range path. -/
theorem missing_attribute_key_aborts (prod_df : DataFrame) (key : String) (values : List Val)
    (rest : List (String × List Val)) (h : key ∉ prod_df.cols) :
    (key ≠ "cloudCover" →
      filter_by_attributes prod_df ((key, values) :: rest)
        = .error (.attributeNotFoundError key))
    ∧ ("cloudCover" ∉ prod_df.cols → ∀ lo hi : Val,
      filter_by_attributes prod_df (("cloudCover", [lo, hi]) :: rest)
        = .error (.attributeNotFoundError "cloudCover")) := by
  constructor
  · intro hk
    simp [filter_by_attributes, hk, filter_by_attrs, h, Except.bind]
  · intro hc lo hi
    simp [filter_by_attributes, filter_by_cloud_cover, hc, Except.bind]

/-- C6 witness: on a record set with only `Id` and `Name` columns, the
predicate list `orbitDirection=[ASCENDING], Id=[p1]` aborts at the unknown
`orbitDirection` key — the valid `Id` predicate after it is never applied. -/
theorem missing_attribute_key_aborts_witness :
    filter_by_attributes bareDf [("orbitDirection", [Val.str "ASCENDING"]),
        ("Id", [Val.str "p1"])]
      = .error (.attributeNotFoundError "orbitDirection") :=
  (missing_attribute_key_aborts bareDf "orbitDirection" [Val.str "ASCENDING"]
    [("Id", [Val.str "p1"])] (by decide)).1 (by decide)

theorem cloudCoverMask_eq_true_iff (lo hi : ℚ) (row : List (String × Val)) :
    cloudCoverMask (Val.num lo) (Val.num hi) row = true ↔
      ∃ q : ℚ, getCell row "cloudCover" = some (Val.num q) ∧ lo ≤ q ∧ q ≤ hi := by
  unfold cloudCoverMask
  cases hc : getCell row "cloudCover" with
  | none => simp
  | some v =>
    cases v with
    | num q => simp [valGE, valLE, and_assoc]
    | str s => simp [valGE, valLE]

/-- C7: a well-formed two-element numeric `cloudCover` predicate `[min, max]`
filters the record set down to exactly the rows whose cloud-cover value `q`
satisfies the inclusive bounds `min ≤ q` and `q ≤ max`, keeping the schema. -/
theorem cloud_cover_inclusive_range (prod_df : DataFrame) (lo hi : ℚ)
    (h : "cloudCover" ∈ prod_df.cols) :
    ∃ out : DataFrame,
      filter_by_attributes prod_df [("cloudCover", [Val.num lo, Val.num hi])] = .ok out
      ∧ out.cols = prod_df.cols
      ∧ ∀ row, row ∈ out.rows ↔
          row ∈ prod_df.rows
          ∧ ∃ q : ℚ, getCell row "cloudCover" = some (Val.num q) ∧ lo ≤ q ∧ q ≤ hi := by
  refine ⟨{ prod_df with
      rows := prod_df.rows.filter (cloudCoverMask (Val.num lo) (Val.num hi)) }, ?_, rfl, ?_⟩
  · simp [filter_by_attributes, filter_by_cloud_cover, h, Except.bind]
  · intro row
    simp [List.mem_filter, cloudCoverMask_eq_true_iff]

/-- C7 witness: the inclusive-range theorem at the spec's example — cloud-cover
values 10, 50, 90 and predicate `cloudCover=[20,60]`. -/
theorem cloud_cover_inclusive_range_witness :
    ∃ out : DataFrame,
      filter_by_attributes exampleDf [("cloudCover", [Val.num 20, Val.num 60])] = .ok out
      ∧ out.cols = exampleDf.cols
      ∧ ∀ row, row ∈ out.rows ↔
          row ∈ exampleDf.rows
          ∧ ∃ q : ℚ, getCell row "cloudCover" = some (Val.num q) ∧ 20 ≤ q ∧ q ≤ 60 :=
  cloud_cover_inclusive_range exampleDf 20 60 (by decide)

/-- On the spec's concrete example, only the record with cloud-cover 50 is
kept. -/
theorem cloud_cover_example_keeps_only_50 :
    filter_by_attributes exampleDf [("cloudCover", [Val.num 20, Val.num 60])]
      = .ok { exampleDf with
          rows := [[("Id", Val.str "p2"), ("Name", Val.str "B"), ("cloudCover", Val.num 50)]] } := by
  decide

/-- C8 counterexample: with the source's default worker count 4 and a single
product, the pool is sized 4 — the configured count is used as given, not
clamped to the number of records. -/
theorem pool_size_unclamped :
    pool_size 4 8 1 = 4 ∧ ¬ (pool_size 4 8 1 ≤ 1) := by
  exact ⟨rfl, by decide⟩

/-- C8 (amended): `download_all` dispatches exactly one task per record, but
the pool size is not clamped to the record count: any non-zero configured
count is used as given, and only a zero (falsy) count falls back to
`min(cpu_count() - 2, len(products))` — itself not clamped to at least 1. -/
theorem pool_size_and_dispatch (threads cpu_count : Int)
    (products : List (String × String)) :
    (threads ≠ 0 → pool_size threads cpu_count products.length = threads)
    ∧ (threads = 0 → pool_size threads cpu_count products.length
        = min (cpu_count - 2) (products.length : Int))
    ∧ productGetCalls (download_all_calls products) = products.length := by
  refine ⟨fun h => by simp [pool_size, h], fun h => by simp [pool_size, h], ?_⟩
  induction products with
  | nil => rfl
  | cons p t ih =>
    simp only [download_all_calls, List.map_cons, List.flatten_cons, productGetCalls,
      List.countP_append, List.length_cons] at *
    rw [ih]
    show 1 + t.length = t.length + 1
    omega

/-- C8 witness: the amended claim at worker count 4, cpu count 8 and a
two-product batch. -/
theorem pool_size_and_dispatch_witness :
    pool_size 4 8 (List.length [("uid1", "A"), ("uid2", "B")]) = 4 :=
  (pool_size_and_dispatch 4 8 [("uid1", "A"), ("uid2", "B")]).1 (by decide)

/-- C9: a criterion that is present but falsy — result cap 0 or an empty
optional string — is treated exactly like an absent criterion: the built query
string is the one with that criterion omitted. -/
theorem falsy_criteria_omitted (m st et : String) :
    (∀ (ex fp ob : Option String) (lim : Option Int),
      build_query m st et (some "") ex fp ob lim = build_query m st et none ex fp ob lim)
    ∧ (∀ (pt fp ob : Option String) (lim : Option Int),
      build_query m st et pt (some "") fp ob lim = build_query m st et pt none fp ob lim)
    ∧ (∀ (pt ex ob : Option String) (lim : Option Int),
      build_query m st et pt ex (some "") ob lim = build_query m st et pt ex none ob lim)
    ∧ (∀ (pt ex fp : Option String) (lim : Option Int),
      build_query m st et pt ex fp (some "") lim = build_query m st et pt ex fp none lim)
    ∧ (∀ pt ex fp ob : Option String,
      build_query m st et pt ex fp ob (some 0) = build_query m st et pt ex fp ob none) := by
  refine ⟨?_, ?_, ?_, ?_, ?_⟩ <;> intros <;> simp [build_query]

/-- C10: filtering with an empty predicate mapping returns the record set
unchanged — `filter_by_attributes` is the identity when given no predicates. -/
theorem filter_by_attributes_nil_identity (prod_df : DataFrame) :
    filter_by_attributes prod_df [] = .ok prod_df := rfl

end Copernicus
